import Mathlib

/-!
Verification of the BuzzVerse lora_driver core (src/driver/lora_driver.c)
against its natural-language specification.

The driver talks to an SX127x-class radio through a byte-oriented SPI
transport (`spi_read`, `spi_write`, `spi_read_buf`, `spi_write_buf`).  We
model the transport as an oracle `Env`: for every transport operation,
indexed by a global operation counter (`tick`), the oracle decides whether
the operation succeeds (`failAt`) and which byte(s) a read returns
(`readVal`, `readBufVal`).  The driver's process-wide globals
(`__implicit`, `__frequency`, `__send_packet_lost`) live in the state `St`,
together with the tick and the trace of transport operations issued so far.
Every driver function is translated directly from the C source, including
its quirks (status codes accumulated by arithmetic addition, discarded
return statuses, the read-into-the-mode-argument slip in
`lora_set_dio_mapping` for pins 4 and 5).  Machine integers are `Nat`
with explicit `% 256` / `% 2 ^ 64` where C truncation occurs.
-/

namespace LoraDriver

/-! ### Status codes (lora_driver_defs.h, enum lora_status_t) -/

abbrev LORA_OK : Nat := 0
abbrev LORA_FAIL : Nat := 1
abbrev LORA_FAILED_INIT : Nat := 2
abbrev LORA_FAILED_SPI_WRITE : Nat := 3
abbrev LORA_FAILED_SPI_WRITE_BUF : Nat := 4
abbrev LORA_FAILED_SPI_READ : Nat := 5
abbrev LORA_FAILED_SPI_READ_BUF : Nat := 6
abbrev LORA_FAILED_SEND_PACKET : Nat := 7
abbrev LORA_FAILED_RECEIVE_PACKET : Nat := 8
abbrev LORA_DELAY_FAIL : Nat := 9
abbrev LORA_CRC_ERROR : Nat := 10

/-! ### Register addresses and masks (lora_driver_defs.h) -/

abbrev REG_FIFO : Nat := 0x00
abbrev REG_OP_MODE : Nat := 0x01
abbrev REG_FRF_MSB : Nat := 0x06
abbrev REG_FRF_MID : Nat := 0x07
abbrev REG_FRF_LSB : Nat := 0x08
abbrev REG_PA_CONFIG : Nat := 0x09
abbrev REG_FIFO_ADDR_PTR : Nat := 0x0d
abbrev REG_FIFO_RX_CURRENT_ADDR : Nat := 0x10
abbrev REG_IRQ_FLAGS : Nat := 0x12
abbrev REG_RX_NB_BYTES : Nat := 0x13
abbrev REG_PKT_RSSI_VALUE : Nat := 0x1a
abbrev REG_MODEM_CONFIG_2 : Nat := 0x1e
abbrev REG_PAYLOAD_LENGTH : Nat := 0x22
abbrev REG_DETECTION_OPTIMIZE : Nat := 0x31
abbrev REG_DETECTION_THRESHOLD : Nat := 0x37
abbrev REG_DIO_MAPPING_1 : Nat := 0x40
abbrev REG_DIO_MAPPING_2 : Nat := 0x41

abbrev MODE_LONG_RANGE_MODE : Nat := 0x80
abbrev MODE_SLEEP : Nat := 0x00
abbrev MODE_STDBY : Nat := 0x01
abbrev MODE_TX : Nat := 0x03
abbrev MODE_RX_CONTINUOUS : Nat := 0x05

abbrev IRQ_TX_DONE_MASK : Nat := 0x08
abbrev IRQ_PAYLOAD_CRC_ERROR_MASK : Nat := 0x20
abbrev IRQ_RX_DONE_MASK : Nat := 0x40
abbrev IRQ_PAYLOAD_CRC_ERROR : Nat := 0x20

/-! ### Transport oracle and driver state -/

/-- One SPI transport operation, as recorded in the trace:
single-byte register read (with the byte obtained), single-byte register
write, buffered read, buffered write. -/
inductive SpiOp where
  | rd (reg val : Nat)
  | wr (reg val : Nat)
  | rdbuf (reg len : Nat)
  | wrbuf (reg : Nat) (data : List Nat)
deriving DecidableEq, Repr

/-- The transport environment: for the `tick`-th transport operation,
whether it fails, and the byte(s) the hardware supplies to a read.  A read
that fails still leaves some byte in the caller's out parameter; the C
driver frequently uses that byte without checking the status, so the model
always hands back the oracle's byte. -/
structure Env where
  failAt : Nat → Bool
  readVal : Nat → Nat → Nat
  readBufVal : Nat → Nat → Nat → Nat

/-- Driver state: transport-operation counter, the C file's globals
`__implicit`, `__frequency`, `__send_packet_lost`, and the trace of
transport operations issued so far. -/
structure St where
  tick : Nat
  implicit : Nat
  frequency : Int
  sendPacketLost : Nat
  trace : List SpiOp

/-! ### Register access wrappers (lora_write_reg / lora_read_reg / buffers) -/

/-- `lora_write_reg`: one SPI write; returns `LORA_OK` or
`LORA_FAILED_SPI_WRITE`. -/
def lora_write_reg (env : Env) (reg val : Nat) (s : St) : Nat × St :=
  ((if env.failAt s.tick then LORA_FAILED_SPI_WRITE else LORA_OK),
   { s with tick := s.tick + 1, trace := s.trace ++ [SpiOp.wr reg val] })

/-- `lora_read_reg`: one SPI read; returns the status together with the
byte placed in the out parameter (always a byte, i.e. reduced `% 256`). -/
def lora_read_reg (env : Env) (reg : Nat) (s : St) : Nat × Nat × St :=
  ((if env.failAt s.tick then LORA_FAILED_SPI_READ else LORA_OK),
   env.readVal s.tick reg % 256,
   { s with tick := s.tick + 1,
            trace := s.trace ++ [SpiOp.rd reg (env.readVal s.tick reg % 256)] })

/-- `lora_write_reg_buffer`: one buffered SPI write. -/
def lora_write_reg_buffer (env : Env) (reg : Nat) (data : List Nat) (s : St) :
    Nat × St :=
  ((if env.failAt s.tick then LORA_FAILED_SPI_WRITE_BUF else LORA_OK),
   { s with tick := s.tick + 1, trace := s.trace ++ [SpiOp.wrbuf reg data] })

/-- `lora_read_reg_buffer`: one buffered SPI read of `len` bytes. -/
def lora_read_reg_buffer (env : Env) (reg len : Nat) (s : St) :
    Nat × List Nat × St :=
  ((if env.failAt s.tick then LORA_FAILED_SPI_READ_BUF else LORA_OK),
   (List.range len).map (fun i => env.readBufVal s.tick reg i % 256),
   { s with tick := s.tick + 1, trace := s.trace ++ [SpiOp.rdbuf reg len] })

/-! ### Mode controller -/

/-- `lora_idle_mode`: write Standby into the op-mode register. -/
def lora_idle_mode (env : Env) (s : St) : Nat × St :=
  lora_write_reg env REG_OP_MODE (MODE_LONG_RANGE_MODE ||| MODE_STDBY) s

/-- `lora_sleep_mode`: write Sleep into the op-mode register. -/
def lora_sleep_mode (env : Env) (s : St) : Nat × St :=
  lora_write_reg env REG_OP_MODE (MODE_LONG_RANGE_MODE ||| MODE_SLEEP) s

/-! ### Configuration: frequency, spreading factor, DIO mapping -/

/-- C conversion `(uint64_t)x` of a signed `long`: reduction modulo
`2 ^ 64`, nonnegative representative. -/
def u64 (x : Int) : Nat := (x % (2 : Int) ^ 64).toNat

/-- `lora_set_frequency`: store the frequency global, compute
`frf = ((uint64_t)frequency << 19) / 32000000` (64-bit shift and
truncating division), and write its three bytes high-to-low into
`REG_FRF_MSB`, `REG_FRF_MID`, `REG_FRF_LSB`.  Statuses are accumulated by
addition, as in the C source. -/
def lora_set_frequency (env : Env) (frequency : Int) (s : St) : Nat × St :=
  let s0 := { s with frequency := frequency }
  let frf : Nat := (u64 frequency <<< 19) % 2 ^ 64 / 32000000
  let p1 := lora_write_reg env REG_FRF_MSB (frf >>> 16 % 256) s0
  let p2 := lora_write_reg env REG_FRF_MID (frf >>> 8 % 256) p1.2
  let p3 := lora_write_reg env REG_FRF_LSB (frf % 256) p2.2
  (p1.1 + p2.1 + p3.1, p3.2)

/-- `lora_set_spreading_factor`: clamp to `[6, 12]`; write the detection
optimize/threshold registers (`0xc5`/`0x0c` for SF 6, `0xc3`/`0x0a`
otherwise); then read-modify-write `REG_MODEM_CONFIG_2`, keeping the low
nibble and packing the clamped SF into the high nibble. -/
def lora_set_spreading_factor (env : Env) (sf : Nat) (s : St) : Nat × St :=
  let sfc := if sf < 6 then 6 else if sf > 12 then 12 else sf
  let p1 := lora_write_reg env REG_DETECTION_OPTIMIZE
    (if sfc = 6 then 0xc5 else 0xc3) s
  let p2 := lora_write_reg env REG_DETECTION_THRESHOLD
    (if sfc = 6 then 0x0c else 0x0a) p1.2
  let p3 := lora_read_reg env REG_MODEM_CONFIG_2 p2.2
  let p4 := lora_write_reg env REG_MODEM_CONFIG_2
    ((p3.2.1 &&& 0x0f) ||| ((sfc <<< 4) &&& 0xf0)) p3.2.2
  (p1.1 + p2.1 + p3.1 + p4.1, p4.2)

/-- `lora_set_dio_mapping`: for pins 0-3, read-modify-write the two-bit
field of `REG_DIO_MAPPING_1`.  For pins 4-5 the C source reads the
register into the `mode` argument (`&mode` instead of `&_mode`), so the
caller's mode is discarded, the local `_mode` keeps its initial value 0,
and the written byte is the old register value shifted into the pin's
field (truncated to a byte); this slip is reproduced faithfully.  Pin
index 6 or more returns `LORA_FAIL`. -/
def lora_set_dio_mapping (env : Env) (dio mode : Nat) (s : St) : Nat × St :=
  if dio < 4 then
    let p := lora_read_reg env REG_DIO_MAPPING_1 s
    if p.1 ≠ LORA_OK then (p.1, p.2.2)
    else
      let m :=
        if dio = 0 then ((p.2.1 &&& 0x3f) ||| (mode <<< 6)) % 256
        else if dio = 1 then ((p.2.1 &&& 0xcf) ||| (mode <<< 4)) % 256
        else if dio = 2 then ((p.2.1 &&& 0xf3) ||| (mode <<< 2)) % 256
        else ((p.2.1 &&& 0xfc) ||| mode) % 256
      let q := lora_write_reg env REG_DIO_MAPPING_1 m p.2.2
      (p.1 + q.1, q.2)
  else if dio < 6 then
    let p := lora_read_reg env REG_DIO_MAPPING_2 s
    let m :=
      if dio = 4 then ((0 &&& 0x3f) ||| (p.2.1 <<< 6)) % 256
      else ((0 &&& 0xcf) ||| (p.2.1 <<< 4)) % 256
    let q := lora_write_reg env REG_DIO_MAPPING_2 m p.2.2
    (p.1 + q.1, q.2)
  else (LORA_FAIL, s)

/-- `lora_get_dio_mapping`: read the mapping register for the pin and
extract the pin's two-bit field.  `mapping0` is the prior content of the
caller's out parameter, returned unchanged on failure or out-of-range
pin. -/
def lora_get_dio_mapping (env : Env) (dio mapping0 : Nat) (s : St) :
    Nat × Nat × St :=
  if dio < 4 then
    let p := lora_read_reg env REG_DIO_MAPPING_1 s
    if p.1 ≠ LORA_OK then (p.1, mapping0, p.2.2)
    else
      let v :=
        if dio = 0 then (p.2.1 >>> 6) &&& 0x03
        else if dio = 1 then (p.2.1 >>> 4) &&& 0x03
        else if dio = 2 then (p.2.1 >>> 2) &&& 0x03
        else p.2.1 &&& 0x03
      (LORA_OK, v, p.2.2)
  else if dio < 6 then
    let p := lora_read_reg env REG_DIO_MAPPING_2 s
    if p.1 ≠ LORA_OK then (p.1, mapping0, p.2.2)
    else
      let v := if dio = 4 then (p.2.1 >>> 6) &&& 0x03 else (p.2.1 >>> 4) &&& 0x03
      (LORA_OK, v, p.2.2)
  else (LORA_FAIL, mapping0, s)

/-! ### Packet engine -/

/-- The send-completion poll of `lora_send_packet`: read the IRQ-flags
register; stop when the TX-done bit is observed, or when the loop counter
reaches 65535.  `fuel` is an upper bound on the remaining iterations used
to express the C `while (1)` as structural recursion; with
`loop + fuel = 65535` the fuel never runs out before the counter bound.
Returns the final loop-counter value and state. -/
def sendPoll (env : Env) : Nat → Nat → St → Nat × St
  | 0, loop, s => (loop, s)
  | fuel + 1, loop, s =>
    if (lora_read_reg env REG_IRQ_FLAGS s).2.1 &&& IRQ_TX_DONE_MASK =
        IRQ_TX_DONE_MASK then
      (loop, (lora_read_reg env REG_IRQ_FLAGS s).2.2)
    else if loop + 1 = 65535 then
      (loop + 1, (lora_read_reg env REG_IRQ_FLAGS s).2.2)
    else sendPoll env fuel (loop + 1) (lora_read_reg env REG_IRQ_FLAGS s).2.2

/-- The tail of `lora_send_packet` after the five setup writes all
succeeded: poll for TX-done starting with loop counter 0; if the counter
reached the bound 65535, increment the 8-bit lost-packet counter
(wrapping `% 256`); unconditionally issue the sleep-mode write (status
discarded); finish by clearing the TX-done IRQ bit, returning that final
write's status. -/
def sendFinish (env : Env) (s : St) : Nat × St :=
  let q := sendPoll env 65535 0 s
  let s6 :=
    if q.1 = 65535 then
      { q.2 with sendPacketLost := (q.2.sendPacketLost + 1) % 256 }
    else q.2
  let s7 := (lora_sleep_mode env s6).2
  lora_write_reg env REG_IRQ_FLAGS IRQ_TX_DONE_MASK s7

/-- `lora_send_packet`: standby, FIFO pointer to 0, buffered payload
write, payload length, transmit mode — statuses accumulated by addition;
any failure short-circuits to `LORA_FAILED_SEND_PACKET` before the poll.
Otherwise run the completion poll and epilogue (`sendFinish`). -/
def lora_send_packet (env : Env) (buf : List Nat) (size : Nat) (s : St) :
    Nat × St :=
  let p1 := lora_idle_mode env s
  let p2 := lora_write_reg env REG_FIFO_ADDR_PTR 0 p1.2
  let p3 := lora_write_reg_buffer env REG_FIFO (buf.take size) p2.2
  let p4 := lora_write_reg env REG_PAYLOAD_LENGTH size p3.2
  let p5 := lora_write_reg env REG_OP_MODE (MODE_LONG_RANGE_MODE ||| MODE_TX) p4.2
  if p1.1 + p2.1 + p3.1 + p4.1 + p5.1 ≠ LORA_OK then
    (LORA_FAILED_SEND_PACKET, p5.2)
  else sendFinish env p5.2

/-- `lora_receive_packet`: read the IRQ flags and write them straight
back (write-1-to-clear); fail with `LORA_FAIL` when RX-done is absent or
the payload-CRC-error bit is present.  Otherwise read the payload length
(payload-length register in implicit header mode, received-bytes register
otherwise), force standby, reposition the FIFO pointer to the current RX
address, clamp the length to the caller's capacity, buffered-read the
payload, and return `LORA_OK` — the statuses of all operations are
computed and discarded, exactly as in the C source.  `buf0` and `rl0` are
the prior contents of the caller's buffer and length out-parameter. -/
def lora_receive_packet (env : Env) (buf0 : List Nat) (rl0 size : Nat)
    (s : St) : Nat × List Nat × Nat × St :=
  let p1 := lora_read_reg env REG_IRQ_FLAGS s
  let p2 := lora_write_reg env REG_IRQ_FLAGS p1.2.1 p1.2.2
  if p1.2.1 &&& IRQ_RX_DONE_MASK = 0 then (LORA_FAIL, buf0, rl0, p2.2)
  else if p1.2.1 &&& IRQ_PAYLOAD_CRC_ERROR_MASK ≠ 0 then
    (LORA_FAIL, buf0, rl0, p2.2)
  else
    let pl :=
      if p2.2.implicit ≠ 0 then lora_read_reg env REG_PAYLOAD_LENGTH p2.2
      else lora_read_reg env REG_RX_NB_BYTES p2.2
    let p4 := lora_idle_mode env pl.2.2
    let p5 := lora_read_reg env REG_FIFO_RX_CURRENT_ADDR p4.2
    let p6 := lora_write_reg env REG_FIFO_ADDR_PTR p5.2.1 p5.2.2
    let len := if pl.2.1 > size then size else pl.2.1
    let p7 := lora_read_reg_buffer env REG_FIFO len p6.2
    (LORA_OK, p7.2.1 ++ buf0.drop len, len, p7.2.2)

/-- `lora_received`: read the IRQ flags (failure of this read is the one
checked error, returning `LORA_FAIL`), report whether RX-done is set and
— only in that case — whether the payload-CRC-error bit is set, clearing
just that bit by writing `IRQ_PAYLOAD_CRC_ERROR_MASK` back.  `rcv0` and
`crc0` are the prior contents of the caller's out parameters; when RX-done
is absent, `crc0` is left untouched, as in the C source. -/
def lora_received (env : Env) (rcv0 crc0 : Bool) (s : St) :
    Nat × Bool × Bool × St :=
  let p := lora_read_reg env REG_IRQ_FLAGS s
  if p.1 ≠ LORA_OK then (LORA_FAIL, rcv0, crc0, p.2.2)
  else if p.2.1 &&& IRQ_RX_DONE_MASK ≠ 0 then
    if p.2.1 &&& IRQ_PAYLOAD_CRC_ERROR ≠ 0 then
      let q := lora_write_reg env REG_IRQ_FLAGS IRQ_PAYLOAD_CRC_ERROR_MASK p.2.2
      (LORA_OK, true, true, q.2)
    else (LORA_OK, true, false, p.2.2)
  else (LORA_OK, false, crc0, p.2.2)

/-! ### Telemetry -/

/-- `lora_packet_rssi`: read the raw RSSI register; on success store
`reg_val - (frequency < 868 MHz ? 164 : 157)` into the caller's 8-bit out
parameter (C `uint8_t` assignment, i.e. the arithmetic result modulo
256). `rssi0` is the prior content of the out parameter. -/
def lora_packet_rssi (env : Env) (rssi0 : Nat) (s : St) : Nat × Nat × St :=
  let p := lora_read_reg env REG_PKT_RSSI_VALUE s
  if p.1 ≠ LORA_OK then (LORA_FAIL, rssi0, p.2.2)
  else
    (LORA_OK,
     (((p.2.1 : Int) - (if s.frequency < 868000000 then 164 else 157)) %
        (2 : Int) ^ 8).toNat,
     p.2.2)

/-- Reading of a byte as a signed two's-complement 8-bit quantity, the
interpretation a caller gives to the RSSI out parameter. -/
def asInt8 (b : Nat) : Int :=
  if b % 256 < 128 then (b % 256 : Int) else (b % 256 : Int) - 256

/-! ### Concrete environments and states used for witnesses,
counterexamples and failing-input evaluations -/

/-- Transport that always succeeds and reads 0 everywhere. -/
def envZero : Env := ⟨fun _ => false, fun _ _ => 0, fun _ _ _ => 0⟩

/-- Transport that always succeeds; every register read yields `0x60`
(RX-done and payload-CRC-error bits both set). -/
def envIrq60 : Env := ⟨fun _ => false, fun _ _ => 0x60, fun _ _ _ => 0⟩

/-- Transport that always succeeds; every register read yields `0x40`
(RX-done set, CRC-error clear). -/
def envIrq40 : Env := ⟨fun _ => false, fun _ _ => 0x40, fun _ _ _ => 0⟩

/-- Transport that always succeeds; every register read yields `0x08`
(TX-done set). -/
def envIrq8 : Env := ⟨fun _ => false, fun _ _ => 0x08, fun _ _ _ => 0⟩

/-- Transport that always succeeds; every register read yields `0xff`. -/
def envFF : Env := ⟨fun _ => false, fun _ _ => 0xff, fun _ _ _ => 0⟩

/-- Transport that always succeeds; every register read yields 100. -/
def env100 : Env := ⟨fun _ => false, fun _ _ => 100, fun _ _ _ => 0⟩

/-- Transport on which every operation fails; reads still leave `0x40`
in the out parameter. -/
def envAllFail : Env := ⟨fun _ => true, fun _ _ => 0x40, fun _ _ _ => 0⟩

/-- Transport whose very first operation fails; reads yield `0x08`. -/
def envFailFirst : Env :=
  ⟨fun i => decide (i = 0), fun _ _ => 0x08, fun _ _ _ => 0⟩

/-- Fresh driver state: tick 0, explicit header mode, frequency 0,
no lost packets, empty trace. -/
def st0 : St := ⟨0, 0, 0, 0, []⟩

/-- Fresh state whose last configured frequency is 433 MHz. -/
def stF433 : St := ⟨0, 0, 433000000, 0, []⟩

/-- Fresh state whose lost-packet counter already stands at 255. -/
def stLost255 : St := ⟨0, 0, 0, 255, []⟩

/-! ### C5 — RSSI offset selection -/

/-- C5: on a successful read of the raw RSSI register value `r`, the
get-RSSI operation reports `r - 164` when the last configured frequency is
below 868 MHz and `r - 157` otherwise, delivered through the 8-bit out
parameter as the raw arithmetic result reduced modulo 256 — no clamping or
saturation; in particular, raw value 100 with last frequency 433000000 Hz
yields the byte whose two's-complement reading is `-64`. -/
theorem packet_rssi_spec (env : Env) (s : St) (rssi0 : Nat)
    (h : env.failAt s.tick = false) :
    (lora_packet_rssi env rssi0 s).1 = LORA_OK ∧
    ((lora_packet_rssi env rssi0 s).2.1 : Int) =
      ((env.readVal s.tick REG_PKT_RSSI_VALUE % 256 : Int) -
        (if s.frequency < 868000000 then 164 else 157)) % 2 ^ 8 ∧
    (env.readVal s.tick REG_PKT_RSSI_VALUE % 256 = 100 →
      s.frequency = 433000000 →
      asInt8 (lora_packet_rssi env rssi0 s).2.1 = -64) := by
  refine ⟨?_, ?_, ?_⟩
  · simp [lora_packet_rssi, lora_read_reg, h]
  · simp only [lora_packet_rssi, lora_read_reg, h]
    rw [if_neg (by simp)]
    exact Int.toNat_of_nonneg (Int.emod_nonneg _ (by norm_num))
  · intro hv hf
    simp [lora_packet_rssi, lora_read_reg, h, hv, hf, asInt8]

/-- Witness for C5 at a concrete transport: raw RSSI 100, last frequency
433 MHz, signed reading of the result is `-64`. -/
theorem packet_rssi_spec_witness :
    asInt8 (lora_packet_rssi env100 7 stF433).2.1 = -64 :=
  (packet_rssi_spec env100 stF433 7 rfl).2.2 rfl rfl

/-! ### C6 — spreading-factor clamp and nibble packing -/

set_option maxRecDepth 4000 in
/-- Packing a clamped spreading factor into the high nibble of a byte `r`
keeps the low nibble of `r` and puts exactly `sfc <<< 4` into the high
nibble. -/
lemma nibble_pack (sfc : Nat) (h6 : 6 ≤ sfc) (h12 : sfc ≤ 12) :
    ∀ r, r < 256 →
      ((r &&& 0x0f) ||| ((sfc <<< 4) &&& 0xf0)) &&& 0xf0 = sfc <<< 4 ∧
      ((r &&& 0x0f) ||| ((sfc <<< 4) &&& 0xf0)) &&& 0x0f = r &&& 0x0f := by
  interval_cases sfc <;> decide

/-- C6: for every spreading-factor input, the applied value is the input
clamped to `[6, 12]`; the modem-config-2 register is written with the old
value's low nibble preserved and the clamped factor in the high nibble;
and the two detection registers receive `0xc5`/`0x0c` when the applied
value is 6, and the distinct constants `0xc3`/`0x0a` otherwise.  The trace
equation lists the four transport operations issued, in order. -/
theorem set_spreading_factor_spec (env : Env) (s : St) (sf : Nat) :
    let sfc := if sf < 6 then 6 else if sf > 12 then 12 else sf
    let r := env.readVal (s.tick + 2) REG_MODEM_CONFIG_2 % 256
    let w := (r &&& 0x0f) ||| ((sfc <<< 4) &&& 0xf0)
    sfc = max 6 (min sf 12) ∧
    (lora_set_spreading_factor env sf s).2.trace = s.trace ++
      [SpiOp.wr REG_DETECTION_OPTIMIZE (if sfc = 6 then 0xc5 else 0xc3),
       SpiOp.wr REG_DETECTION_THRESHOLD (if sfc = 6 then 0x0c else 0x0a),
       SpiOp.rd REG_MODEM_CONFIG_2 r,
       SpiOp.wr REG_MODEM_CONFIG_2 w] ∧
    w &&& 0xf0 = sfc <<< 4 ∧
    w &&& 0x0f = r &&& 0x0f := by
  intro sfc r w
  have hsfc6 : 6 ≤ sfc := by
    simp only [sfc]; split_ifs <;> omega
  have hsfc12 : sfc ≤ 12 := by
    simp only [sfc]; split_ifs <;> omega
  have hr : r < 256 := Nat.mod_lt _ (by norm_num)
  refine ⟨?_, ?_, (nibble_pack sfc hsfc6 hsfc12 r hr).1,
    (nibble_pack sfc hsfc6 hsfc12 r hr).2⟩
  · simp only [sfc]; split_ifs <;> omega
  · simp [lora_set_spreading_factor, lora_write_reg, lora_read_reg,
      Nat.add_assoc, sfc, r, w]

/-! ### C1 — receive failure cases -/

/-- C1 (amended): when the RX-done bit is absent from the IRQ flags the
receive operation returns `LORA_FAIL` and leaves the caller's buffer and
length out-parameter untouched; when RX-done is present but the
payload-CRC-error bit is set it also returns `LORA_FAIL` — the same
failure value, not a distinct one — again leaving buffer and length
untouched. -/
theorem receive_packet_failure_spec (env : Env) (buf0 : List Nat)
    (rl0 size : Nat) (s : St) :
    let irqv := env.readVal s.tick REG_IRQ_FLAGS % 256
    (irqv &&& IRQ_RX_DONE_MASK = 0 →
      (lora_receive_packet env buf0 rl0 size s).1 = LORA_FAIL ∧
      (lora_receive_packet env buf0 rl0 size s).2.1 = buf0 ∧
      (lora_receive_packet env buf0 rl0 size s).2.2.1 = rl0) ∧
    (irqv &&& IRQ_RX_DONE_MASK ≠ 0 → irqv &&& IRQ_PAYLOAD_CRC_ERROR_MASK ≠ 0 →
      (lora_receive_packet env buf0 rl0 size s).1 = LORA_FAIL ∧
      (lora_receive_packet env buf0 rl0 size s).2.1 = buf0 ∧
      (lora_receive_packet env buf0 rl0 size s).2.2.1 = rl0) := by
  intro irqv
  constructor
  · intro h0
    simp [lora_receive_packet, lora_read_reg, lora_write_reg, h0]
  · intro h0 h1
    simp [lora_receive_packet, lora_read_reg, lora_write_reg, h0, h1]

/-- Witness for C1: with IRQ flags 0 the receive call fails with
`LORA_FAIL` and returns the caller's buffer `[5, 6]` and length 7
untouched; with IRQ flags `0x60` (RX-done and CRC-error) it fails with the
same value `LORA_FAIL`. -/
theorem receive_packet_failure_witness :
    (lora_receive_packet envZero [5, 6] 7 2 st0).1 = LORA_FAIL ∧
    (lora_receive_packet envZero [5, 6] 7 2 st0).2.1 = [5, 6] ∧
    (lora_receive_packet envZero [5, 6] 7 2 st0).2.2.1 = 7 ∧
    (lora_receive_packet envIrq60 [5, 6] 7 2 st0).1 = LORA_FAIL := by
  have h0 := (receive_packet_failure_spec envZero [5, 6] 7 2 st0).1 (by decide)
  have h1 :=
    (receive_packet_failure_spec envIrq60 [5, 6] 7 2 st0).2 (by decide) (by decide)
  exact ⟨h0.1, h0.2.1, h0.2.2, h1.1⟩

/-- Counterexample to C1 as stated: the payload-CRC-error failure is NOT
distinct from the nothing-available failure — with IRQ flags `0x60`
(RX-done and CRC-error set) and with IRQ flags 0 (nothing available) the
receive call returns the very same status value, `LORA_FAIL = 1`. -/
theorem receive_packet_fail_not_distinct :
    (lora_receive_packet envIrq60 [] 0 8 st0).1 = LORA_FAIL ∧
    (lora_receive_packet envZero [] 0 8 st0).1 = LORA_FAIL ∧
    (lora_receive_packet envIrq60 [] 0 8 st0).1 =
      (lora_receive_packet envZero [] 0 8 st0).1 := by
  decide

/-! ### C7 — receive length clamping -/

/-- C7: on a successful receive (RX-done present, CRC-error absent), when
the physical payload length exceeds the caller-provided capacity the
returned length equals the capacity (silent truncation) and the status is
still `LORA_OK`; when the payload fits, the returned length equals the
payload length. -/
theorem receive_packet_truncation (env : Env) (buf0 : List Nat)
    (rl0 size : Nat) (s : St)
    (hrx : (env.readVal s.tick REG_IRQ_FLAGS % 256) &&& IRQ_RX_DONE_MASK ≠ 0)
    (hcrc : (env.readVal s.tick REG_IRQ_FLAGS % 256) &&&
      IRQ_PAYLOAD_CRC_ERROR_MASK = 0) :
    let plen := env.readVal (s.tick + 2)
      (if s.implicit ≠ 0 then REG_PAYLOAD_LENGTH else REG_RX_NB_BYTES) % 256
    (lora_receive_packet env buf0 rl0 size s).1 = LORA_OK ∧
    (plen > size → (lora_receive_packet env buf0 rl0 size s).2.2.1 = size) ∧
    (plen ≤ size → (lora_receive_packet env buf0 rl0 size s).2.2.1 = plen) := by
  intro plen
  by_cases himp : s.implicit = 0
  · refine ⟨?_, fun hgt => ?_, fun hle => ?_⟩ <;>
      simp_all [lora_receive_packet, lora_read_reg, lora_write_reg,
        lora_idle_mode, lora_read_reg_buffer, plen, Nat.add_assoc,
        Nat.not_lt.mpr]
  · refine ⟨?_, fun hgt => ?_, fun hle => ?_⟩ <;>
      simp_all [lora_receive_packet, lora_read_reg, lora_write_reg,
        lora_idle_mode, lora_read_reg_buffer, plen, Nat.add_assoc,
        Nat.not_lt.mpr]

/-- Witness for C7: payload length 0x40 = 64 (the oracle reads `0x40`
everywhere) against capacity 5 returns length 5 with status `LORA_OK`;
against capacity 200 it returns the payload length 64. -/
theorem receive_packet_truncation_witness :
    (lora_receive_packet envIrq40 [] 0 5 st0).1 = LORA_OK ∧
    (lora_receive_packet envIrq40 [] 0 5 st0).2.2.1 = 5 ∧
    (lora_receive_packet envIrq40 [] 0 200 st0).2.2.1 = 64 := by
  have h5 := receive_packet_truncation envIrq40 [] 0 5 st0 (by decide) (by decide)
  have h200 :=
    receive_packet_truncation envIrq40 [] 0 200 st0 (by decide) (by decide)
  exact ⟨h5.1, h5.2.1 (by decide), h200.2.2 (by decide)⟩

/-! ### C10 — receive discards post-check statuses -/

/-- C10: once the RX-done check and the CRC-error check pass, the receive
operation returns `LORA_OK` regardless of the transport oracle — the
return statuses of the payload-length read, the standby write, the FIFO
RX-address read, the FIFO-pointer write and the buffered FIFO read are all
discarded, so the call reports success even if every one of those
transport operations fails. -/
theorem receive_packet_status_discard (env : Env) (buf0 : List Nat)
    (rl0 size : Nat) (s : St)
    (hrx : (env.readVal s.tick REG_IRQ_FLAGS % 256) &&& IRQ_RX_DONE_MASK ≠ 0)
    (hcrc : (env.readVal s.tick REG_IRQ_FLAGS % 256) &&&
      IRQ_PAYLOAD_CRC_ERROR_MASK = 0) :
    (lora_receive_packet env buf0 rl0 size s).1 = LORA_OK := by
  by_cases himp : s.implicit = 0 <;>
    simp_all [lora_receive_packet, lora_read_reg, lora_write_reg,
      lora_idle_mode, lora_read_reg_buffer]

/-- Witness for C10: on a transport where every single operation fails
(reads still observing IRQ flags `0x40`), the receive call nevertheless
returns `LORA_OK`. -/
theorem receive_packet_status_discard_witness :
    (lora_receive_packet envAllFail [] 0 8 st0).1 = LORA_OK :=
  receive_packet_status_discard envAllFail [] 0 8 st0 (by decide) (by decide)

/-! ### C9 — non-consuming status check -/

/-- C9: when its IRQ-flags read succeeds, `lora_received` reports the
packet-received and CRC-error booleans and issues at most one further
transport operation: a write of exactly `IRQ_PAYLOAD_CRC_ERROR_MASK`
(`0x20`) to the IRQ-flags register, performed only when the CRC-error bit
is set (together with RX-done).  Under the chip's write-1-to-clear
convention that write clears only the CRC-error bit, leaving RX-done and
every other IRQ bit unchanged for the receive call to clear. -/
theorem received_spec (env : Env) (s : St) (rcv0 crc0 : Bool)
    (h : env.failAt s.tick = false) :
    let v := env.readVal s.tick REG_IRQ_FLAGS % 256
    (lora_received env rcv0 crc0 s).1 = LORA_OK ∧
    (v &&& IRQ_RX_DONE_MASK ≠ 0 → v &&& IRQ_PAYLOAD_CRC_ERROR ≠ 0 →
      (lora_received env rcv0 crc0 s).2.1 = true ∧
      (lora_received env rcv0 crc0 s).2.2.1 = true ∧
      (lora_received env rcv0 crc0 s).2.2.2.trace = s.trace ++
        [SpiOp.rd REG_IRQ_FLAGS v,
         SpiOp.wr REG_IRQ_FLAGS IRQ_PAYLOAD_CRC_ERROR_MASK]) ∧
    (v &&& IRQ_RX_DONE_MASK ≠ 0 → v &&& IRQ_PAYLOAD_CRC_ERROR = 0 →
      (lora_received env rcv0 crc0 s).2.1 = true ∧
      (lora_received env rcv0 crc0 s).2.2.1 = false ∧
      (lora_received env rcv0 crc0 s).2.2.2.trace = s.trace ++
        [SpiOp.rd REG_IRQ_FLAGS v]) ∧
    (v &&& IRQ_RX_DONE_MASK = 0 →
      (lora_received env rcv0 crc0 s).2.1 = false ∧
      (lora_received env rcv0 crc0 s).2.2.1 = crc0 ∧
      (lora_received env rcv0 crc0 s).2.2.2.trace = s.trace ++
        [SpiOp.rd REG_IRQ_FLAGS v]) := by
  intro v
  refine ⟨?_, fun h1 h2 => ?_, fun h1 h2 => ?_, fun h1 => ?_⟩ <;>
    simp_all [lora_received, lora_read_reg, lora_write_reg]
  by_cases h1 : v &&& IRQ_RX_DONE_MASK = 0 <;>
    by_cases h2 : v &&& IRQ_PAYLOAD_CRC_ERROR = 0 <;>
    simp_all

/-- Witness for C9: IRQ flags `0x60` (RX-done and CRC-error): both
booleans are reported true and the trace shows the read followed by the
single clearing write of `0x20`. -/
theorem received_spec_witness :
    (lora_received envIrq60 false false st0).2.1 = true ∧
    (lora_received envIrq60 false false st0).2.2.1 = true ∧
    (lora_received envIrq60 false false st0).2.2.2.trace =
      [SpiOp.rd REG_IRQ_FLAGS 0x60, SpiOp.wr REG_IRQ_FLAGS 0x20] := by
  have h := (received_spec envIrq60 st0 false false rfl).2.1 (by decide) (by decide)
  exact ⟨h.1, h.2.1, h.2.2⟩

/-! ### C3 — DIO mapping round trip (code bug for pins 4 and 5) -/

/-- C3 (code bug, evaluated at the failing input): for pin 4 with mode 1,
the C source reads `REG_DIO_MAPPING_2` into the `mode` argument (`&mode`
instead of `&_mode`), so the caller's mode is discarded.  With the
register initially 0 the set writes 0 (not the field value 1), and a
subsequent get — reading back the written byte 0 — returns mapping 0
instead of 1, so the set/get round trip fails.  With the register
initially `0xff` the set writes `0xc0`, zeroing pin 5's bits 5:4 (which
were `0x30`), so unrelated fields are not preserved either. -/
theorem dio_mapping_pin4_bug :
    (lora_set_dio_mapping envZero 4 1 st0).2.trace =
      [SpiOp.rd REG_DIO_MAPPING_2 0, SpiOp.wr REG_DIO_MAPPING_2 0] ∧
    (lora_get_dio_mapping envZero 4 7 st0).2.1 = 0 ∧
    (lora_get_dio_mapping envZero 4 7 st0).2.1 ≠ 1 ∧
    (lora_set_dio_mapping envFF 4 1 st0).2.trace =
      [SpiOp.rd REG_DIO_MAPPING_2 0xff, SpiOp.wr REG_DIO_MAPPING_2 0xc0] := by
  decide

/-! ### C4 — frequency synthesis -/

/-- Modelled from the spec: division rounded to nearest,
`roundDiv a b = round (a / b)` with halves rounding up, the reading the
spec's formula `frf = round(frequency_hz * 2^19 / 32_000_000)` prescribes;
the C source instead truncates.  Used only to compare the code against the
spec's words. -/
def roundDiv (a b : Nat) : Nat := (2 * a + b) / (2 * b)

/-- C4 (amended): the set-frequency operation computes
`frf = floor(f * 2^19 / 32000000)` — truncating division, not rounding to
nearest — a 24-bit value for every frequency below 1.024 GHz, and writes
its MSB, MID and LSB bytes into the three consecutive registers
`0x06`, `0x07`, `0x08` in high-to-low order; the frequency global is
updated to `f`. -/
theorem set_frequency_spec (env : Env) (s : St) (f : Nat)
    (hf : f < 1024000000) :
    let frf := f * 2 ^ 19 / 32000000
    (lora_set_frequency env (f : Int) s).2.trace = s.trace ++
      [SpiOp.wr REG_FRF_MSB (frf >>> 16 % 256),
       SpiOp.wr REG_FRF_MID (frf >>> 8 % 256),
       SpiOp.wr REG_FRF_LSB (frf % 256)] ∧
    frf < 2 ^ 24 ∧
    (lora_set_frequency env (f : Int) s).2.frequency = (f : Int) := by
  intro frf
  have hu : u64 (f : Int) = f := by
    unfold u64
    rw [Int.emod_eq_of_lt (by positivity) (by exact_mod_cast by omega)]
    exact Int.toNat_natCast f
  have hsh : (u64 (f : Int) <<< 19) % 18446744073709551616 = f * 524288 := by
    have he : u64 (f : Int) <<< 19 = f * 524288 := by
      rw [hu, Nat.shiftLeft_eq]
    rw [he, Nat.mod_eq_of_lt (by omega)]
  refine ⟨?_, ?_, ?_⟩
  · simp [lora_set_frequency, lora_write_reg, hsh, frf]
  · show f * 2 ^ 19 / 32000000 < 2 ^ 24
    rw [Nat.div_lt_iff_lt_mul (by norm_num)]
    have hb : f * 524288 < 536870912000000 := by omega
    simpa using hb
  · simp [lora_set_frequency, lora_write_reg]

/-- Witness for C4 at 433 MHz: `frf = 7094272 = 0x6c4000`, written as
bytes 108, 64, 0 to registers 6, 7, 8. -/
theorem set_frequency_spec_witness :
    (lora_set_frequency envZero ((433000000 : Nat) : Int) st0).2.trace =
      [SpiOp.wr REG_FRF_MSB 108, SpiOp.wr REG_FRF_MID 64,
       SpiOp.wr REG_FRF_LSB 0] := by
  have h := (set_frequency_spec envZero st0 433000000 (by norm_num)).1
  rw [h]
  decide

/-- Counterexample to C4 as stated: at frequency 433000031 Hz the exact
quotient `433000031 * 2^19 / 32000000 = 7094272.507...` rounds to nearest
as 7094273 (low byte 1), but the code's truncating division yields 7094272
and the register trace shows low byte 0 — the code floors, it does not
round. -/
theorem set_frequency_round_counterexample :
    (lora_set_frequency envZero ((433000031 : Nat) : Int) st0).2.trace =
      [SpiOp.wr REG_FRF_MSB 108, SpiOp.wr REG_FRF_MID 64,
       SpiOp.wr REG_FRF_LSB 0] ∧
    roundDiv (433000031 * 2 ^ 19) 32000000 = 7094273 ∧
    roundDiv (433000031 * 2 ^ 19) 32000000 % 256 = 1 ∧
    (1 : Nat) ≠ 0 := by
  refine ⟨by decide, by decide, by decide, by decide⟩

/-! ### C2 and C8 — send protocol: completion poll, lost-packet counter,
setup short-circuit -/

/-- The TX-done bit is visible in the IRQ-flags byte the oracle supplies
at tick `t`. -/
abbrev txSeen (env : Env) (t : Nat) : Prop :=
  (env.readVal t REG_IRQ_FLAGS % 256) &&& IRQ_TX_DONE_MASK = IRQ_TX_DONE_MASK

/-- State evolution of one poll read of the IRQ-flags register. -/
abbrev pollStep (env : Env) (s : St) : St :=
  (lora_read_reg env REG_IRQ_FLAGS s).2.2

/-- Unfolding equation for one iteration of the send-completion poll. -/
lemma sendPoll_succ (env : Env) (fuel loop : Nat) (s : St) :
    sendPoll env (fuel + 1) loop s =
      if txSeen env s.tick then (loop, pollStep env s)
      else if loop + 1 = 65535 then (loop + 1, pollStep env s)
      else sendPoll env fuel (loop + 1) (pollStep env s) := rfl

/-- One poll read advances the tick by one. -/
lemma pollStep_tick (env : Env) (s : St) :
    (pollStep env s).tick = s.tick + 1 := rfl

/-- One poll read does not touch the lost-packet counter. -/
lemma pollStep_lost (env : Env) (s : St) :
    (pollStep env s).sendPacketLost = s.sendPacketLost := rfl

/-- The poll loop never modifies the lost-packet counter. -/
lemma sendPoll_lost (env : Env) :
    ∀ fuel loop s,
      (sendPoll env fuel loop s).2.sendPacketLost = s.sendPacketLost := by
  intro fuel
  induction fuel with
  | zero => intro loop s; rfl
  | succ n ih =>
    intro loop s
    rw [sendPoll_succ]
    split
    · rfl
    · split
      · rfl
      · rw [ih]
        exact pollStep_lost env s

/-- If none of the `fuel` upcoming IRQ reads shows the TX-done bit and the
loop counter is positioned `fuel` short of the bound, the poll ends with
the loop counter at the bound 65535. -/
lemma sendPoll_timeout (env : Env) :
    ∀ fuel loop s, loop + fuel = 65535 →
      (∀ k, k < fuel → ¬ txSeen env (s.tick + k)) →
      (sendPoll env fuel loop s).1 = 65535 := by
  intro fuel
  induction fuel with
  | zero => intro loop s h _; simpa using h
  | succ n ih =>
    intro loop s h hnone
    rw [sendPoll_succ]
    rw [if_neg (by simpa using hnone 0 (Nat.succ_pos n))]
    split
    · next hl => simpa using hl
    · next hl =>
      apply ih (loop + 1) (pollStep env s) (by omega)
      intro k hk
      have hs := hnone (k + 1) (by omega)
      have ht : (pollStep env s).tick + k = s.tick + (k + 1) := by
        rw [pollStep_tick]; omega
      rw [ht]
      exact hs

/-- If some IRQ read within the remaining budget shows the TX-done bit,
the poll stops strictly below the bound. -/
lemma sendPoll_hit (env : Env) :
    ∀ fuel loop s, loop + fuel = 65535 →
      (∃ k, k < fuel ∧ txSeen env (s.tick + k)) →
      (sendPoll env fuel loop s).1 < 65535 := by
  intro fuel
  induction fuel with
  | zero =>
    rintro loop s h ⟨k, hk, _⟩
    omega
  | succ n ih =>
    rintro loop s h ⟨k, hk, htx⟩
    rw [sendPoll_succ]
    by_cases h0 : txSeen env s.tick
    · rw [if_pos h0]
      show loop < 65535
      omega
    · rw [if_neg h0]
      have hk0 : k ≠ 0 := by
        intro h'
        apply h0
        simpa [h'] using htx
      split
      · next hl =>
        exfalso
        have : k = 0 := by omega
        exact hk0 this
      · next hl =>
        apply ih (loop + 1) (pollStep env s) (by omega)
        refine ⟨k - 1, by omega, ?_⟩
        have ht : (pollStep env s).tick + (k - 1) = s.tick + k := by
          rw [pollStep_tick]; omega
        rw [ht]
        exact htx

/-- When the TX-done bit appears within the bound, the send epilogue
leaves the lost-packet counter unchanged. -/
lemma sendFinish_hit (env : Env) (s : St)
    (hhit : ∃ k, k < 65535 ∧ txSeen env (s.tick + k)) :
    (sendFinish env s).2.sendPacketLost = s.sendPacketLost := by
  have h1 := sendPoll_hit env 65535 0 s (by omega) hhit
  simp only [sendFinish, lora_sleep_mode, lora_write_reg]
  rw [if_neg (by omega)]
  exact sendPoll_lost env 65535 0 s

/-- When no read within the bound shows the TX-done bit, the send
epilogue wraps the 8-bit lost-packet counter up by one, returns
`LORA_OK` (the status of the final IRQ-clearing write on a healthy
transport), and its trace ends with the sleep-mode write followed by the
TX-done-clearing write. -/
lemma sendFinish_timeout (env : Env) (s : St)
    (hok : ∀ i, env.failAt i = false)
    (hnone : ∀ k, k < 65535 → ¬ txSeen env (s.tick + k)) :
    (sendFinish env s).2.sendPacketLost = (s.sendPacketLost + 1) % 256 ∧
    (sendFinish env s).1 = LORA_OK ∧
    ∃ l, (sendFinish env s).2.trace =
      l ++ [SpiOp.wr REG_OP_MODE (MODE_LONG_RANGE_MODE ||| MODE_SLEEP),
            SpiOp.wr REG_IRQ_FLAGS IRQ_TX_DONE_MASK] := by
  have h1 := sendPoll_timeout env 65535 0 s (by omega) hnone
  refine ⟨?_, ?_, ?_⟩
  · simp only [sendFinish, lora_sleep_mode, lora_write_reg]
    rw [if_pos h1]
    simp [sendPoll_lost env 65535 0 s]
  · simp [sendFinish, lora_sleep_mode, lora_write_reg, hok]
  · simp only [sendFinish, lora_sleep_mode, lora_write_reg]
    rw [if_pos h1]
    exact ⟨(sendPoll env 65535 0 s).2.trace, by simp⟩

/-- C2 (amended): on a healthy transport, if the TX-done bit is observed
by one of the IRQ reads before the iteration bound of 65535, the send
leaves `lost_packet_count` unchanged; if the bound is reached without
observing the bit, the 8-bit counter is incremented modulo 256 (so it
wraps from 255 to 0 rather than always increasing by exactly 1), the
device is put in Sleep mode (the sleep write appears at the end of the
trace, before the final IRQ-clearing write), and the call returns
`LORA_OK` — the timeout is reported through the counter, not escalated to
a hard failure. -/
theorem send_packet_poll_spec (env : Env) (buf : List Nat) (size : Nat)
    (s : St) (hok : ∀ i, env.failAt i = false) :
    ((∃ k, k < 65535 ∧ txSeen env (s.tick + 5 + k)) →
      (lora_send_packet env buf size s).2.sendPacketLost = s.sendPacketLost) ∧
    ((∀ k, k < 65535 → ¬ txSeen env (s.tick + 5 + k)) →
      (lora_send_packet env buf size s).2.sendPacketLost =
        (s.sendPacketLost + 1) % 256 ∧
      (lora_send_packet env buf size s).1 = LORA_OK ∧
      ∃ l, (lora_send_packet env buf size s).2.trace =
        l ++ [SpiOp.wr REG_OP_MODE (MODE_LONG_RANGE_MODE ||| MODE_SLEEP),
              SpiOp.wr REG_IRQ_FLAGS IRQ_TX_DONE_MASK]) := by
  have hred : lora_send_packet env buf size s = sendFinish env
      { s with tick := s.tick + 5,
               trace := s.trace ++
                 [SpiOp.wr REG_OP_MODE (MODE_LONG_RANGE_MODE ||| MODE_STDBY),
                  SpiOp.wr REG_FIFO_ADDR_PTR 0,
                  SpiOp.wrbuf REG_FIFO (buf.take size),
                  SpiOp.wr REG_PAYLOAD_LENGTH size,
                  SpiOp.wr REG_OP_MODE (MODE_LONG_RANGE_MODE ||| MODE_TX)] } := by
    simp [lora_send_packet, lora_idle_mode, lora_write_reg,
      lora_write_reg_buffer, hok, Nat.add_assoc]
  rw [hred]
  constructor
  · intro hhit
    exact sendFinish_hit env _ hhit
  · intro hnone
    exact sendFinish_timeout env _ hok hnone

/-- Witness for C2: with TX-done visible at the first poll read the lost
counter stays 0; with TX-done never visible the counter becomes 1 and the
call still returns `LORA_OK`. -/
theorem send_packet_poll_spec_witness :
    (lora_send_packet envIrq8 [] 0 st0).2.sendPacketLost = 0 ∧
    (lora_send_packet envZero [] 0 st0).2.sendPacketLost = 1 ∧
    (lora_send_packet envZero [] 0 st0).1 = LORA_OK := by
  have h1 := (send_packet_poll_spec envIrq8 [] 0 st0 (fun _ => rfl)).1
    ⟨0, by norm_num, by decide⟩
  have h2 := (send_packet_poll_spec envZero [] 0 st0 (fun _ => rfl)).2
    (fun k hk => by simp [txSeen, envZero])
  exact ⟨h1, h2.1, h2.2.1⟩

/-- Counterexample to C2 as stated: the lost-packet counter is an 8-bit
quantity, so a send that times out with the counter at 255 wraps it to 0
— it does not increase by exactly 1. -/
theorem send_packet_lost_wrap_counterexample :
    (lora_send_packet envZero [] 0 stLost255).2.sendPacketLost = 0 ∧
    stLost255.sendPacketLost = 255 ∧ (0 : Nat) ≠ 255 + 1 := by
  have hred : lora_send_packet envZero [] 0 stLost255 = sendFinish envZero
      (⟨5, 0, 0, 255,
        [SpiOp.wr REG_OP_MODE (MODE_LONG_RANGE_MODE ||| MODE_STDBY),
         SpiOp.wr REG_FIFO_ADDR_PTR 0,
         SpiOp.wrbuf REG_FIFO [],
         SpiOp.wr REG_PAYLOAD_LENGTH 0,
         SpiOp.wr REG_OP_MODE (MODE_LONG_RANGE_MODE ||| MODE_TX)]⟩ : St) := by
    simp [lora_send_packet, lora_idle_mode, lora_write_reg,
      lora_write_reg_buffer, envZero, stLost255, Nat.add_assoc]
  have h := sendFinish_timeout envZero
      (⟨5, 0, 0, 255,
        [SpiOp.wr REG_OP_MODE (MODE_LONG_RANGE_MODE ||| MODE_STDBY),
         SpiOp.wr REG_FIFO_ADDR_PTR 0,
         SpiOp.wrbuf REG_FIFO [],
         SpiOp.wr REG_PAYLOAD_LENGTH 0,
         SpiOp.wr REG_OP_MODE (MODE_LONG_RANGE_MODE ||| MODE_TX)]⟩ : St)
      (fun _ => rfl) (fun k hk => by simp [txSeen, envZero])
  refine ⟨?_, rfl, by norm_num⟩
  rw [hred]
  exact h.1

/-- C8: if any of the five setup register operations of a send (standby
write, FIFO-pointer write, buffered payload write, length write,
transmit-mode write) fails, the call returns `LORA_FAILED_SEND_PACKET`
and its trace consists of exactly those five operations — the completion
poll (which would add IRQ-flag reads to the trace) is never entered. -/
theorem send_packet_setup_failure (env : Env) (buf : List Nat) (size : Nat)
    (s : St) (h : ∃ i, i < 5 ∧ env.failAt (s.tick + i) = true) :
    (lora_send_packet env buf size s).1 = LORA_FAILED_SEND_PACKET ∧
    (lora_send_packet env buf size s).2.trace = s.trace ++
      [SpiOp.wr REG_OP_MODE (MODE_LONG_RANGE_MODE ||| MODE_STDBY),
       SpiOp.wr REG_FIFO_ADDR_PTR 0,
       SpiOp.wrbuf REG_FIFO (buf.take size),
       SpiOp.wr REG_PAYLOAD_LENGTH size,
       SpiOp.wr REG_OP_MODE (MODE_LONG_RANGE_MODE ||| MODE_TX)] := by
  obtain ⟨i, hi, hf⟩ := h
  interval_cases i <;>
    constructor <;>
      simp_all [lora_send_packet, lora_idle_mode, lora_write_reg,
        lora_write_reg_buffer, Nat.add_assoc, Nat.add_eq_zero]

/-- Witness for C8: a transport whose very first operation fails makes
the send return `LORA_FAILED_SEND_PACKET` after exactly the five setup
writes, with no poll read in the trace. -/
theorem send_packet_setup_failure_witness :
    (lora_send_packet envFailFirst [] 0 st0).1 = LORA_FAILED_SEND_PACKET ∧
    (lora_send_packet envFailFirst [] 0 st0).2.trace =
      [SpiOp.wr REG_OP_MODE 0x81, SpiOp.wr REG_FIFO_ADDR_PTR 0,
       SpiOp.wrbuf REG_FIFO [], SpiOp.wr REG_PAYLOAD_LENGTH 0,
       SpiOp.wr REG_OP_MODE 0x83] := by
  have h := send_packet_setup_failure envFailFirst [] 0 st0
    ⟨0, by norm_num, by decide⟩
  refine ⟨h.1, ?_⟩
  rw [h.2]
  decide

end LoraDriver
